import Mathlib

/-!
Shallow embedding of the PrintQue fleet controller core (Python sources under
`api/services` and `api/utils`) together with theorems settling the spec
claims.  Python dictionaries become Lean structures, `dict.get` with a
possibly-missing key becomes `Option`, Python truthiness is modelled
explicitly, and the network/clock effects become explicit inputs and
outputs of pure functions.
-/

namespace PrintQue

/-! ## Python string primitives used by the sources -/

/-- Python `str.endswith(suffix)`. -/
def pyEndsWith (s suffix : String) : Bool :=
  List.isSuffixOf suffix.data s.data

/-- Python `str.upper()` (ASCII behaviour, which is all the sources use). -/
def pyUpper (s : String) : String :=
  String.mk (s.data.map Char.toUpper)

/-- Whether `needle` occurs as a contiguous prefix of `hay`. -/
def listStartsWith (needle : List Char) : List Char → Bool
  | hay =>
    match needle, hay with
    | [], _ => true
    | _ :: _, [] => false
    | a :: as, b :: bs => a == b && listStartsWith as bs

/-- Whether `needle` occurs contiguously anywhere in `hay`. -/
def listOccursIn (needle : List Char) : List Char → Bool
  | [] => needle.isEmpty
  | c :: rest => listStartsWith needle (c :: rest) || listOccursIn needle rest

/-- Python `needle in hay` on strings (substring containment). -/
def pyContains (hay needle : String) : Bool :=
  listOccursIn needle.data hay.data

/-- Python `line.split(';')[0]`: the prefix of the line before the first `;`. -/
def beforeSemicolon (line : String) : String :=
  String.mk (line.data.takeWhile (fun c => c ≠ ';'))

/-- Python `str.strip()` (whitespace removed from both ends). -/
def pyStrip (s : String) : String :=
  String.mk ((s.data.dropWhile Char.isWhitespace).reverse.dropWhile Char.isWhitespace).reverse

/-- Split a character list on a separator character; like Python
`str.split(sep)`, empty pieces included. -/
def splitOnChar (c : Char) : List Char → List (List Char)
  | [] => [[]]
  | a :: rest =>
    if a == c then
      [] :: splitOnChar c rest
    else
      match splitOnChar c rest with
      | [] => [[a]]
      | h :: t => (a :: h) :: t

/-- Python `s.split('\n')`. -/
def pySplitNewlines (s : String) : List String :=
  (splitOnChar (Char.ofNat 10) s.data).map String.mk

/-! ## `bambu_ftp.prepare_gcode_for_bambu` (remote-filename computation)

Embeds the branch chain of `prepare_gcode_for_bambu` in
`api/services/bambu_ftp.py` that computes the remote filename; the
prepared filepath is the input path unchanged.  The branch order is the
source's branch order. -/

/-- Remote filename computed by `prepare_gcode_for_bambu` for a local
filename (the file's basename). -/
def prepare_gcode_for_bambu (filename : String) : String :=
  if pyEndsWith filename ".3mf" then
    filename
  else if pyEndsWith filename ".gcode" then
    filename
  else if pyEndsWith filename ".gcode.3mf" then
    String.replace filename ".gcode.3mf" ".3mf"
  else
    filename ++ ".gcode"

/-! ## `printer_utils.deduplicate_printers` / `deduplicate_orders`

The dedup functions read `printer.get('name')` / `order.get('id')`, so the
key may be missing; Python truthiness of the key gates the keep condition.
The records carry an opaque payload so distinct duplicates stay distinct. -/

structure RawPrinter where
  name : Option String
  payload : Nat
deriving DecidableEq

structure RawOrder where
  id : Option Int
  payload : Nat
deriving DecidableEq

/-- Python truthiness of an optional string (`None` and `""` are falsy). -/
def pyTruthyStr (s : Option String) : Bool :=
  match s with
  | none => false
  | some s => !(s == "")

/-- Python truthiness of an optional integer (`None` and `0` are falsy). -/
def pyTruthyInt (i : Option Int) : Bool :=
  match i with
  | none => false
  | some i => !(i == 0)

/-- Loop body of `deduplicate_printers`: keep a printer iff its name is
truthy and not yet seen; only kept names enter `seen_names` (the `getD`
is evaluated only when the name is truthy, so it is the name itself). -/
def dedupPrintersGo (seen : List String) : List RawPrinter → List RawPrinter
  | [] => []
  | p :: rest =>
    if pyTruthyStr p.name && !(seen.contains (p.name.getD "")) then
      p :: dedupPrintersGo (p.name.getD "" :: seen) rest
    else
      dedupPrintersGo seen rest

def deduplicate_printers (printers : List RawPrinter) : List RawPrinter :=
  dedupPrintersGo [] printers

/-- Loop body of `deduplicate_orders`: keep an order iff its id is truthy
and not yet seen. -/
def dedupOrdersGo (seen : List Int) : List RawOrder → List RawOrder
  | [] => []
  | o :: rest =>
    if pyTruthyInt o.id && !(seen.contains (o.id.getD 0)) then
      o :: dedupOrdersGo (o.id.getD 0 :: seen) rest
    else
      dedupOrdersGo seen rest

def deduplicate_orders (orders : List RawOrder) : List RawOrder :=
  dedupOrdersGo [] orders

/-! ## `bambu_handler.send_bambu_ejection_gcode`

The G-code blob is stripped, split on newlines, each line truncated at the
first `;` and stripped, empties dropped; `M400` is appended when no line
contains it case-insensitively.  The function rejects the send when an
ejection is already in progress or a 10 s cooldown window is active
(unless forced) or the MQTT client is disconnected; otherwise it publishes
the command list. -/

/-- Comment/whitespace stripping applied to each line of the ejection
G-code: `line.split(';')[0].strip()`. -/
def stripGcodeLine (line : String) : String :=
  pyStrip (beforeSemicolon line)

/-- Non-empty, comment-stripped lines of the ejection G-code blob. -/
def parseGcodeLines (end_gcode : String) : List String :=
  ((pySplitNewlines (pyStrip end_gcode)).map stripGcodeLine).filter (fun l => !(l == ""))

/-- `'M400' in line.upper()`. -/
def lineHasM400 (line : String) : Bool :=
  pyContains (pyUpper line) "M400"

/-- The command list actually sent: the parsed lines, with `M400` appended
when absent. -/
def ejectionCommandList (end_gcode : String) : List String :=
  if (parseGcodeLines end_gcode).any lineHasM400 then parseGcodeLines end_gcode
  else parseGcodeLines end_gcode ++ ["M400"]

/-- Cached per-printer ejection bookkeeping consulted by
`send_bambu_ejection_gcode`. -/
structure BambuEjectionState where
  ejection_in_progress : Bool
  last_ejection_time : Nat
  connected : Bool
deriving DecidableEq

/-- `send_bambu_ejection_gcode` as a pure decision function: `none` when
the send is rejected (already in progress, cooldown, disconnected),
`some cmds` when the command list `cmds` is published. -/
def send_bambu_ejection_gcode (st : BambuEjectionState) (end_gcode : String)
    (force : Bool) (now : Nat) : Option (List String) :=
  if st.ejection_in_progress = true ∧ force = false then
    none
  else if now - st.last_ejection_time < 10 ∧ force = false then
    none
  else if st.connected = false then
    none
  else
    some (ejectionCommandList end_gcode)

/-! ## `order_distributor.distribute_orders_async` batching (claim C3)

The function binds a *local* `MAX_CONCURRENT_JOBS = 10` and slices the job
list in steps of it, sleeping one second after a slice whenever further
jobs remain; `Config.MAX_CONCURRENT_JOBS = 5` in `utils/config.py` is
never consulted. -/

namespace Config

/-- `Config.MAX_CONCURRENT_JOBS` in `api/utils/config.py` (comment there:
"Reduced from 10 to prevent overwhelming"). -/
def MAX_CONCURRENT_JOBS : Nat := 5

end Config

namespace OrderDistributor

/-- The local `MAX_CONCURRENT_JOBS` bound at the top of
`distribute_orders_async`. -/
def MAX_CONCURRENT_JOBS : Nat := 10

/-- Slicing loop, structurally recursive on a fuel bounded by the job
count (each step consumes at least one job, so the fuel never runs out
when it starts at `jobs.length`). -/
def subBatchesAux (fuel : Nat) (jobs : List α) : List (List α) :=
  match fuel, jobs with
  | _, [] => []
  | 0, _ :: _ => []
  | f + 1, a :: l =>
    (a :: l).take MAX_CONCURRENT_JOBS :: subBatchesAux f ((a :: l).drop MAX_CONCURRENT_JOBS)

/-- The sub-batches `all_jobs[i:i+MAX_CONCURRENT_JOBS]` for
`i = 0, MAX, 2*MAX, ...` produced by the distribution loop. -/
def subBatches (jobs : List α) : List (List α) :=
  subBatchesAux jobs.length jobs

/-- Number of one-second sleeps the loop performs: one after each slice
whose end index is still below the job count. -/
def sleepCount (jobs : List α) : Nat :=
  (subBatches jobs).length - 1

end OrderDistributor

/-! ## Data model

Printer and order dictionaries as they live in `PRINTERS` / `ORDERS`.
Nullable dict values are `Option`; timestamps are naturals; gram counts
are rationals (Python floats carry no rounding concern in any claim). -/

structure Printer where
  name : String
  ptype : String
  state : String
  status : String
  group : String
  service_mode : Bool
  manually_set : Bool
  progress : Int
  time_remaining : Int
  file : Option String
  order_id : Option Int
  finish_time : Option Nat
  ejection_processed : Bool
  ejection_in_progress : Bool
  ejection_start_time : Option Nat
  last_ejection_time : Nat
  nozzle_temp : Option Int
  bed_temp : Option Int
  cooldown_target : Option Int
  cooldown_target_temp : Option Int
  cooldown_order_id : Option Int
  count_incremented_for_current_job : Bool
  from_queue : Bool
  total_filament_used_g : Rat
  filament_used_g : Rat
deriving DecidableEq

structure Order where
  id : Int
  filename : String
  filepath : String
  filament_g : Rat
  quantity : Int
  sent : Int
  status : String
  groups : List String
  ejection_enabled : Bool
  end_gcode : String
  cooldown_temp : Option Int
  deleted : Bool
deriving DecidableEq

/-- Per-printer cached MQTT snapshot (`BAMBU_PRINTER_STATES[name]`); a
field is `some` exactly when the corresponding dict key is present. -/
structure BambuCache where
  state : Option String
  nozzle_temp : Option Int
  bed_temp : Option Int
  progress : Option Int
  time_remaining : Option Int
  current_file : Option String
  file : Option String
deriving DecidableEq

/-! ## `status_poller.update_bambu_printer_states` (per-printer step)

The body of the `for printer in PRINTERS` loop of
`update_bambu_printer_states`, as a function of one printer and its cached
snapshot (`none` when the printer has no entry in
`BAMBU_PRINTER_STATES`). -/

/-- The `state_map` dict at the top of `status_poller.py`, with its
`.get(_, 'Unknown')` default. -/
def state_map (s : String) : String :=
  if s = "IDLE" then "Ready"
  else if s = "PRINTING" then "Printing"
  else if s = "PAUSED" then "Paused"
  else if s = "ERROR" then "Error"
  else if s = "FINISHED" then "Finished"
  else if s = "READY" then "Ready"
  else if s = "STOPPED" then "Stopped"
  else if s = "ATTENTION" then "Attention"
  else if s = "EJECTING" then "Ejecting"
  else if s = "PREPARE" then "Preparing"
  else if s = "OFFLINE" then "Offline"
  else if s = "COOLING" then "Cooling"
  else "Unknown"

/-- Temperature copy: `printer['nozzle_temp'] = bambu_state['nozzle_temp']`
(and bed) when the key is present. -/
def applyBambuTemps (p : Printer) (bs : BambuCache) : Printer :=
  let p1 := match bs.nozzle_temp with
    | some t => { p with nozzle_temp := some t }
    | none => p
  match bs.bed_temp with
  | some t => { p1 with bed_temp := some t }
  | none => p1

/-- Progress/time/file copy performed when the new state is PRINTING. -/
def applyBambuPrinting (p : Printer) (bs : BambuCache) : Printer :=
  let p1 := match bs.progress with
    | some v => { p with progress := v }
    | none => p
  let p2 := match bs.time_remaining with
    | some v => { p1 with time_remaining := v }
    | none => p1
  match bs.current_file with
  | some f => { p2 with file := some f }
  | none =>
    match bs.file with
    | some f => { p2 with file := some f }
    | none => p2

/-- One iteration of the `update_bambu_printer_states` loop, for a Vendor-B
printer that has a cached snapshot `bs`. -/
def update_bambu_printer_state (p : Printer) (bs : BambuCache)
    (now : Nat) : Printer :=
  if p.ptype ≠ "bambu" then p
  else if p.state = "COOLING" then p
  else
    let current_state := p.state
    let new_state := bs.state.getD current_state
    if p.manually_set = true ∧ current_state = "READY" ∧
        ¬(new_state = "PRINTING" ∨ new_state = "EJECTING" ∨
          new_state = "PREPARE" ∨ new_state = "PAUSED") then
      applyBambuTemps p bs
    else
      let p1 := applyBambuTemps p bs
      let p2 := if new_state = "PRINTING" then applyBambuPrinting p1 bs else p1
      if new_state ≠ current_state then
        if current_state = "FINISHED" ∧ new_state = "READY" then p2
        else
          let p3 := { p2 with state := new_state, status := state_map new_state }
          let p4 :=
            if (new_state = "PRINTING" ∨ new_state = "EJECTING" ∨
                new_state = "PREPARE") ∧ p3.manually_set = true then
              { p3 with manually_set := false }
            else p3
          if new_state = "FINISHED" ∧ current_state ≠ "FINISHED" then
            { p4 with finish_time := some now }
          else p4
      else p2

/-- The loop iteration including the `printer_name not in bambu_states`
skip. -/
def update_bambu_printer_state_entry (p : Printer) (cache : Option BambuCache)
    (now : Nat) : Printer :=
  match cache with
  | none => p
  | some bs => update_bambu_printer_state p bs now

/-! ## `ejection_manager.handle_finished_state_ejection`

The handler builds an `updates` dict; dict keys it may write are `Option`
fields (`none` = key absent).  Lock acquisition, the Vendor-B MQTT send
and the Vendor-A pending-ejection stash become an explicit outcome. -/

structure Updates where
  state : Option String := none
  status : Option String := none
  progress : Option Int := none
  time_remaining : Option Int := none
  manually_set : Option Bool := none
  ejection_processed : Option Bool := none
  ejection_in_progress : Option Bool := none
  ejection_start_time : Option (Option Nat) := none
  finish_time : Option (Option Nat) := none
  cooldown_target : Option Int := none
  cooldown_target_temp : Option Int := none
  cooldown_order_id : Option Int := none
deriving DecidableEq

inductive EjAction where
  | noAction
  | bambuSend (gcode : String)
  | queuePending (gcode : String)
deriving DecidableEq

structure FinishedResult where
  updates : Updates
  lockAcquired : Bool
  action : EjAction
deriving DecidableEq

/-- Python truthiness test `not printer.get('finish_time')`. -/
def pyFalsyTime (t : Option Nat) : Bool :=
  match t with
  | none => true
  | some v => v == 0

/-- Updates of the `FINISHED->SKIP` guard branch (ejection already
processed or in progress). -/
def skipUpdates (p : Printer) (ftVal : Option Nat) : Updates :=
  { state := some p.state, status := some p.status, progress := some 100,
    time_remaining := some 0, manually_set := some false,
    finish_time := some ftVal }

/-- Updates of the `FINISHED->STAY` branch (no order / ejection not
enabled). -/
def finishedStayUpdates (now : Nat) : Updates :=
  { state := some "FINISHED", status := some "Print Complete",
    progress := some 100, time_remaining := some 0,
    manually_set := some false, ejection_processed := some false,
    ejection_in_progress := some false, ejection_start_time := some none,
    finish_time := some (some now) }

/-- Updates of the `FINISHED->PAUSED` branch (global ejection pause). -/
def ejectionPausedUpdates (now : Nat) : Updates :=
  { state := some "FINISHED",
    status := some "Print Complete (Ejection Paused)",
    progress := some 100, time_remaining := some 0,
    manually_set := some false, ejection_in_progress := some false,
    finish_time := some (some now) }

/-- Updates of the `FINISHED->COOLING` branch.  The source writes the key
`cooldown_target` and no other cool-down key. -/
def coolingUpdates (ftVal : Option Nat) (current_bed_temp cooldown_temp : Int) : Updates :=
  { state := some "COOLING",
    status := some ("Cooling (" ++ toString current_bed_temp ++ "°C → "
      ++ toString cooldown_temp ++ "°C)"),
    progress := some 100, time_remaining := some 0,
    manually_set := some false, ejection_in_progress := some false,
    cooldown_target := some cooldown_temp,
    finish_time := some ftVal }

/-- Updates of the `FINISHED->EJECTING` branch (written before the lock
attempt). -/
def ejectingUpdates (ftVal : Option Nat) (now : Nat) : Updates :=
  { state := some "EJECTING", status := some "Ejecting",
    progress := some 100, time_remaining := some 0,
    manually_set := some false, ejection_in_progress := some true,
    ejection_processed := some true, ejection_start_time := some (some now),
    finish_time := some ftVal }

/-- Tail of the handler that marks EJECTING, tries the per-printer lock
and dispatches the vendor-specific send. -/
def ejectionAttempt (p : Printer) (order : Order) (ftVal : Option Nat)
    (lockFree : Bool) (now : Nat) : FinishedResult :=
  let updates := ejectingUpdates ftVal now
  if lockFree = false then
    { updates := updates, lockAcquired := false, action := .noAction }
  else
    let gcode0 := pyStrip order.end_gcode
    let gcode := if gcode0 = "" then "G28 X Y\nM84" else gcode0
    if p.ptype = "bambu" then
      { updates := updates, lockAcquired := true, action := .bambuSend gcode }
    else
      { updates := updates, lockAcquired := true, action := .queuePending gcode }

/-- `handle_finished_state_ejection` as a pure function.  `cache` is the
printer's `BAMBU_PRINTER_STATES` entry (if any), `lockFree` tells whether
the non-blocking lock acquisition would succeed, `now` is `time.time()`. -/
def handle_finished_state_ejection (p : Printer) (orders : List Order)
    (current_order_id : Option Int) (ejection_paused : Bool)
    (cache : Option BambuCache) (lockFree : Bool) (now : Nat) : FinishedResult :=
  let ftVal : Option Nat := if pyFalsyTime p.finish_time then some now else p.finish_time
  if p.ejection_processed = true ∨ p.ejection_in_progress = true then
    { updates := skipUpdates p ftVal, lockAcquired := false, action := .noAction }
  else
    match orders.find? (fun o => current_order_id == some o.id) with
    | none =>
      { updates := finishedStayUpdates now, lockAcquired := false, action := .noAction }
    | some order =>
      if order.ejection_enabled = false then
        { updates := finishedStayUpdates now, lockAcquired := false, action := .noAction }
      else if ejection_paused = true then
        { updates := ejectionPausedUpdates now, lockAcquired := false, action := .noAction }
      else
        if p.ptype = "bambu" ∧ order.cooldown_temp.isSome = true then
          let cooldown_temp := order.cooldown_temp.getD 0
          let current_bed_temp : Int :=
            match cache with
            | some c => c.bed_temp.getD 0
            | none => 0
          if current_bed_temp > cooldown_temp then
            { updates := coolingUpdates ftVal current_bed_temp cooldown_temp,
              lockAcquired := false, action := .noAction }
          else
            ejectionAttempt p order ftVal lockFree now
        else
          ejectionAttempt p order ftVal lockFree now

/-- Application of an `updates` dict to a printer record
(`PRINTERS[i][key] = value` for each written key). -/
def applyUpdates (p : Printer) (u : Updates) : Printer :=
  { p with
    state := u.state.getD p.state,
    status := u.status.getD p.status,
    progress := u.progress.getD p.progress,
    time_remaining := u.time_remaining.getD p.time_remaining,
    manually_set := u.manually_set.getD p.manually_set,
    ejection_processed := u.ejection_processed.getD p.ejection_processed,
    ejection_in_progress := u.ejection_in_progress.getD p.ejection_in_progress,
    ejection_start_time := u.ejection_start_time.getD p.ejection_start_time,
    finish_time := u.finish_time.getD p.finish_time,
    cooldown_target :=
      match u.cooldown_target with
      | some v => some v
      | none => p.cooldown_target,
    cooldown_target_temp :=
      match u.cooldown_target_temp with
      | some v => some v
      | none => p.cooldown_target_temp,
    cooldown_order_id :=
      match u.cooldown_order_id with
      | some v => some v
      | none => p.cooldown_order_id }

/-! ## `order_distributor.distribute_orders_async` job construction

Active-order and ready-printer snapshots, per-order eligibility filtering,
the numeric-substring sort and the copies cap, folded over the active
orders exactly as the outer loop does. -/

/-- First maximal digit run of a character list (`re.findall(r'\d+', s)`
then taking the first match). -/
def firstDigitRun : List Char → Option (List Char)
  | [] => none
  | c :: rest =>
    if c.isDigit then some ((c :: rest).takeWhile Char.isDigit)
    else firstDigitRun rest

def digitsToNat (ds : List Char) : Nat :=
  ds.foldl (fun n c => 10 * n + (c.toNat - 48)) 0

/-- `extract_number`: sort key of a printer; `none` plays the role of
`float('inf')` (no digits in the name). -/
def extract_number (p : Printer) : Option Nat :=
  (firstDigitRun p.name.data).map digitsToNat

/-- Ordering on sort keys with `none` as positive infinity. -/
def keyLe : Option Nat → Option Nat → Bool
  | _, none => true
  | none, some _ => false
  | some a, some b => a ≤ b

def insertByKey (x : Printer) : List Printer → List Printer
  | [] => [x]
  | y :: ys =>
    if keyLe (extract_number y) (extract_number x) then y :: insertByKey x ys
    else x :: y :: ys

/-- Stable sort of the eligible printers by `extract_number`
(`eligible_printers.sort(key=extract_number)`). -/
def sortByExtractNumber : List Printer → List Printer
  | [] => []
  | x :: xs => insertByKey x (sortByExtractNumber xs)

/-- `active_orders`: not deleted, not completed, `sent < quantity`. -/
def activeOrders (orders : List Order) : List Order :=
  orders.filter (fun o =>
    !o.deleted && !(o.status == "completed") && decide (o.sent < o.quantity))

/-- `ready_printers`: non-service-mode printers whose state is READY or
IDLE. -/
def readyPrinters (printers : List Printer) : List Printer :=
  (printers.filter (fun p => !p.service_mode)).filter
    (fun p => p.state == "READY" || p.state == "IDLE")

/-- Loop state of the job-construction loop: names already assigned this
pass, `(order id, printer name)` pairs already processed, jobs queued. -/
structure DistState where
  assigned : List String
  processed : List (Int × String)
  jobs : List (Printer × Order)
deriving DecidableEq

/-- `eligible_printers` for one order given the current loop state. -/
def eligiblePrinters (ready : List Printer) (st : DistState) (o : Order) :
    List Printer :=
  ready.filter (fun p =>
    o.groups.contains p.group && !(st.assigned.contains p.name) &&
    !(st.processed.contains (o.id, p.name)))

/-- Body of the outer `for order in active_orders` loop. -/
def distStep (ready : List Printer) (st : DistState) (o : Order) : DistState :=
  let eligible := sortByExtractNumber (eligiblePrinters ready st o)
  let copies_needed : Int := min (o.quantity - o.sent) (eligible.length : Int)
  if copies_needed ≤ 0 then st
  else
    let chosen := eligible.take copies_needed.toNat
    { assigned := st.assigned ++ chosen.map (fun p => p.name),
      processed := st.processed ++ chosen.map (fun p => (o.id, p.name)),
      jobs := st.jobs ++ chosen.map (fun p => (p, o)) }

/-- The `(printer, order)` jobs queued by one distribution pass. -/
def distribute_jobs (orders : List Order) (printers : List Printer) :
    List (Printer × Order) :=
  ((activeOrders orders).foldl (distStep (readyPrinters printers))
    ⟨[], [], []⟩).jobs

/-! ## `print_jobs.check_and_start_print`

Pure model of one job start.  Network outcomes are explicit inputs:
`netOk` is the upload/start outcome, `incrementOk` the outcome of
`increment_order_sent_count` (a `services.state` helper), `fileReadOk`
whether the local file read succeeds (Vendor A only).  The result records
the mutated printer copy, the success flag returned to the distributor,
the new global filament total and which network sends happened. -/

inductive NetOp where
  | deleteFile
  | uploadFile
  | bambuUpload
deriving DecidableEq

structure CspResult where
  printer : Printer
  success : Bool
  total : Rat
  sends : List NetOp
deriving DecidableEq

/-- Filename rewriting in the Bambu branch of `check_and_start_print`
(the printer expects a `.3mf`-suffixed name). -/
def bambuQueueFilename (filename : String) : String :=
  if pyEndsWith filename ".3mf" then filename
  else if pyEndsWith filename ".gcode" then
    String.replace filename ".gcode" ".gcode.3mf"
  else filename ++ ".gcode.3mf"

def check_and_start_print (p : Printer) (o : Order) (total : Rat)
    (netOk incrementOk fileReadOk : Bool) : CspResult :=
  if ¬(p.state = "READY" ∨ p.state = "IDLE") then
    { printer := p, success := false, total := total, sends := [] }
  else
    let p0 := { p with count_incremented_for_current_job := false }
    if p.ptype = "bambu" then
      if netOk = true then
        let p1 := { p0 with
          state := "PRINTING", file := some o.filename, from_queue := true }
        let p2 :=
          if incrementOk = true then
            { p1 with
              order_id := some o.id, from_queue := true, finish_time := none,
              count_incremented_for_current_job := true }
          else p1
        let total2 := if incrementOk = true then total + o.filament_g else total
        { printer := { p2 with
            manually_set := false, ejection_processed := false,
            ejection_in_progress := false },
          success := true, total := total2, sends := [NetOp.bambuUpload] }
      else
        { printer := p0, success := false, total := total,
          sends := [NetOp.bambuUpload] }
    else
      if fileReadOk = false then
        { printer := p0, success := false, total := total, sends := [] }
      else if netOk = true then
        let p1 := { p0 with
          state := "PRINTING", file := some o.filename, from_queue := true }
        let p2 :=
          if incrementOk = true then
            { p1 with
              order_id := some o.id, from_queue := true, finish_time := none,
              count_incremented_for_current_job := true }
          else p1
        let total2 := if incrementOk = true then total + o.filament_g else total
        { printer := { p2 with
            total_filament_used_g := p2.total_filament_used_g + o.filament_g,
            filament_used_g := o.filament_g, manually_set := false,
            ejection_processed := false, ejection_in_progress := false,
            finish_time := none },
          success := true, total := total2,
          sends := [NetOp.deleteFile, NetOp.uploadFile] }
      else
        { printer := p0, success := false, total := total,
          sends := [NetOp.deleteFile, NetOp.uploadFile] }

/-! ## Concrete fixtures used to instantiate the theorems -/

/-- A baseline Vendor-A printer record, READY and quiescent. -/
def pBase : Printer :=
  { name := "Printer1", ptype := "prusa", state := "READY", status := "Ready",
    group := "Default", service_mode := false, manually_set := false,
    progress := 0, time_remaining := 0, file := none, order_id := none,
    finish_time := none, ejection_processed := false,
    ejection_in_progress := false, ejection_start_time := none,
    last_ejection_time := 0, nozzle_temp := none, bed_temp := none,
    cooldown_target := none, cooldown_target_temp := none,
    cooldown_order_id := none, count_incremented_for_current_job := false,
    from_queue := false, total_filament_used_g := 0, filament_used_g := 0 }

/-- A baseline active order: one copy pending, 12 g of filament. -/
def oBase : Order :=
  { id := 1, filename := "part.gcode", filepath := "/data/part.gcode",
    filament_g := 12, quantity := 1, sent := 0, status := "pending",
    groups := ["Default"], ejection_enabled := false, end_gcode := "",
    cooldown_temp := none, deleted := false }

/-- A baseline empty MQTT snapshot. -/
def bsBase : BambuCache :=
  { state := none, nozzle_temp := none, bed_temp := none, progress := none,
    time_remaining := none, current_file := none, file := none }

/-- A finished Vendor-B printer owning order 1, with a recorded finish
time. -/
def pFinishedBambu : Printer :=
  { pBase with
    ptype := "bambu", state := "FINISHED", status := "Finished",
    order_id := some 1, finish_time := some 500 }

/-- Order 1 with ejection enabled and a 40 °C cool-down. -/
def oCooldown : Order :=
  { oBase with ejection_enabled := true, cooldown_temp := some 40 }

/-- MQTT snapshot reporting FINISH with a 55 °C bed. -/
def bsHotBed : BambuCache :=
  { bsBase with state := some "FINISH", bed_temp := some 55 }

/-- The FINISHED handler's result on the cool-down fixture. -/
def coolingRun : FinishedResult :=
  handle_finished_state_ejection pFinishedBambu [oCooldown] (some 1) false
    (some bsHotBed) true 1000

/-- A FINISHED printer whose ejection was already processed. -/
def pGuarded : Printer :=
  { pBase with
    state := "FINISHED", status := "Print Complete",
    ejection_processed := true }

/-- A Vendor-B printer held READY by the user. -/
def pManualReady : Printer :=
  { pBase with ptype := "bambu", manually_set := true }

/-- Snapshot with a stale FINISHED state but fresh temperatures. -/
def bsStaleFinished : BambuCache :=
  { bsBase with
    state := some "FINISHED", nozzle_temp := some 210, bed_temp := some 60 }

/-- A quiescent READY Vendor-B printer. -/
def pReadyBambu : Printer :=
  { pBase with ptype := "bambu" }

/-- Snapshot reporting PRINTING. -/
def bsPrinting : BambuCache :=
  { bsBase with state := some "PRINTING" }

/-- A Vendor-B printer stuck in FINISHED awaiting user action. -/
def pFinishedSticky : Printer :=
  { pBase with ptype := "bambu", state := "FINISHED", status := "Finished" }

/-- Snapshot reporting READY after completion. -/
def bsReady : BambuCache :=
  { bsBase with state := some "READY" }

/-- An offline printer, ineligible for job starts. -/
def pOffline : Printer :=
  { pBase with state := "OFFLINE", status := "Offline" }

/-! ## Theorems settling the claims -/

/-- C1: the spec invariant demands `state == COOLING ⇒ cooldown_target_temp
≠ null ∧ cooldown_order_id ≠ null`, but when
`handle_finished_state_ejection` moves a finished Vendor-B printer with an
order cool-down into COOLING, its updates dict writes the key
`cooldown_target` and never writes `cooldown_target_temp` or
`cooldown_order_id`, so the resulting COOLING record leaves both at null
(the cooling monitor and broadcaster read exactly those two keys). -/
theorem cooling_updates_miss_cooldown_keys :
    coolingRun.updates.state = some "COOLING" ∧
    coolingRun.updates.cooldown_target = some 40 ∧
    coolingRun.updates.cooldown_target_temp = none ∧
    coolingRun.updates.cooldown_order_id = none ∧
    (applyUpdates pFinishedBambu coolingRun.updates).state = "COOLING" ∧
    (applyUpdates pFinishedBambu coolingRun.updates).cooldown_target_temp = none ∧
    (applyUpdates pFinishedBambu coolingRun.updates).cooldown_order_id = none := by
  decide

/-- C2: the claim says `<name>.gcode.3mf` is rewritten to `<name>.3mf`,
but the `.gcode.3mf` branch of `prepare_gcode_for_bambu` is dead: such a
name also ends in `.3mf`, so the first branch returns it unchanged. -/
theorem prepare_gcode_for_bambu_keeps_gcode_3mf :
    prepare_gcode_for_bambu "example.gcode.3mf" = "example.gcode.3mf" ∧
    prepare_gcode_for_bambu "example.gcode.3mf" ≠ "example.3mf" := by
  decide

/-- C3: the distribution loop slices jobs with a local
`MAX_CONCURRENT_JOBS = 10`, not `Config.MAX_CONCURRENT_JOBS = 5`: six
queued jobs run as a single sub-batch of six (no sleep), exceeding the
configured cap of five. -/
theorem distribution_batches_exceed_config_cap :
    OrderDistributor.subBatches [1, 2, 3, 4, 5, 6] = [[1, 2, 3, 4, 5, 6]] ∧
    OrderDistributor.sleepCount [1, 2, 3, 4, 5, 6] = 0 ∧
    OrderDistributor.MAX_CONCURRENT_JOBS = 10 ∧
    Config.MAX_CONCURRENT_JOBS = 5 ∧
    ∃ b ∈ OrderDistributor.subBatches [1, 2, 3, 4, 5, 6],
      Config.MAX_CONCURRENT_JOBS < b.length := by
  decide

/-- C5: when `ejection_processed` or `ejection_in_progress` is set,
`handle_finished_state_ejection` keeps the printer's current state and
status, does not touch the ejection flags, acquires no lock and neither
sends nor queues any ejection G-code, so repeated invocations for the same
FINISHED cycle after the first attempt decide nothing new. -/
theorem finished_handler_guard_noop :
    ∀ (p : Printer) (orders : List Order) (oid : Option Int) (paused : Bool)
      (cache : Option BambuCache) (lockFree : Bool) (now : Nat),
      p.ejection_processed = true ∨ p.ejection_in_progress = true →
      (handle_finished_state_ejection p orders oid paused cache lockFree
        now).updates.state = some p.state ∧
      (handle_finished_state_ejection p orders oid paused cache lockFree
        now).updates.status = some p.status ∧
      (handle_finished_state_ejection p orders oid paused cache lockFree
        now).updates.ejection_processed = none ∧
      (handle_finished_state_ejection p orders oid paused cache lockFree
        now).updates.ejection_in_progress = none ∧
      (handle_finished_state_ejection p orders oid paused cache lockFree
        now).lockAcquired = false ∧
      (handle_finished_state_ejection p orders oid paused cache lockFree
        now).action = EjAction.noAction := by
  intro p orders oid paused cache lockFree now h
  simp [handle_finished_state_ejection, h, skipUpdates]

/-- Witness for C5 at a concrete FINISHED printer with
`ejection_processed = true`. -/
theorem finished_handler_guard_noop_witness :
    (handle_finished_state_ejection pGuarded [] none false none true
      7).action = EjAction.noAction :=
  (finished_handler_guard_noop pGuarded [] none false none true 7
    (Or.inl (by decide))).2.2.2.2.2

/-- C9: whenever `send_bambu_ejection_gcode` accepts a send, the published
command list contains an `M400` line (case-insensitively), and when no
parsed line of the supplied G-code contains `M400` the command `M400` is
appended as the final line. -/
theorem ejection_gcode_contains_m400 :
    ∀ (st : BambuEjectionState) (g : String) (force : Bool) (now : Nat)
      (cmds : List String),
      send_bambu_ejection_gcode st g force now = some cmds →
      cmds.any lineHasM400 = true ∧
      ((parseGcodeLines g).any lineHasM400 = false →
        cmds = parseGcodeLines g ++ ["M400"]) := by
  intro st g force now cmds h
  unfold send_bambu_ejection_gcode at h
  split_ifs at h
  have hc : cmds = ejectionCommandList g := by
    injection h with h
    exact h.symm
  subst hc
  unfold ejectionCommandList
  by_cases hm : (parseGcodeLines g).any lineHasM400 = true
  · rw [if_pos hm]
    exact ⟨hm, fun hf => absurd hm (by simp [hf])⟩
  · have hm2 : (parseGcodeLines g).any lineHasM400 = false :=
      Bool.eq_false_iff.mpr hm
    rw [if_neg hm]
    constructor
    · rw [List.any_append, hm2]
      decide
    · intro
      rfl

/-- Witness for C9: a G-code blob with no `M400` line, accepted for
sending (no ejection in progress, cool-down expired, client connected). -/
theorem ejection_gcode_contains_m400_witness :
    (ejectionCommandList "G28 X Y\nM84").any lineHasM400 = true :=
  (ejection_gcode_contains_m400
    { ejection_in_progress := false, last_ejection_time := 0, connected := true }
    "G28 X Y\nM84" false 100 (ejectionCommandList "G28 X Y\nM84")
    (by decide)).1

/-- Helper for C10: every survivor of the printer dedup loop has a truthy
name. -/
theorem dedupPrintersGo_truthy :
    ∀ (l : List RawPrinter) (seen : List String) (p : RawPrinter),
      p ∈ dedupPrintersGo seen l → pyTruthyStr p.name = true := by
  intro l
  induction l with
  | nil =>
    intro seen p h
    simp [dedupPrintersGo] at h
  | cons q rest ih =>
    intro seen p h
    simp only [dedupPrintersGo] at h
    cases hcond : (pyTruthyStr q.name && !(seen.contains (q.name.getD ""))) with
    | false =>
      rw [hcond] at h
      simp at h
      exact ih _ _ h
    | true =>
      rw [hcond] at h
      simp at h
      rcases h with h1 | h2
      · subst h1
        simp at hcond
        exact hcond.1
      · exact ih _ _ h2

/-- Helper for C10: every survivor of the order dedup loop has a truthy
id. -/
theorem dedupOrdersGo_truthy :
    ∀ (l : List RawOrder) (seen : List Int) (o : RawOrder),
      o ∈ dedupOrdersGo seen l → pyTruthyInt o.id = true := by
  intro l
  induction l with
  | nil =>
    intro seen o h
    simp [dedupOrdersGo] at h
  | cons q rest ih =>
    intro seen o h
    simp only [dedupOrdersGo] at h
    cases hcond : (pyTruthyInt q.id && !(seen.contains (q.id.getD 0))) with
    | false =>
      rw [hcond] at h
      simp at h
      exact ih _ _ h
    | true =>
      rw [hcond] at h
      simp at h
      rcases h with h1 | h2
      · subst h1
        simp at hcond
        exact hcond.1
      · exact ih _ _ h2

/-- C10: the dedup keep condition requires a truthy key in addition to
unseen, so a printer with a missing or empty name and an order with a
missing or zero id are removed even as sole occurrences. -/
theorem dedup_removes_falsy_keys :
    (∀ (printers : List RawPrinter) (p : RawPrinter),
        p ∈ deduplicate_printers printers → pyTruthyStr p.name = true) ∧
    (∀ (orders : List RawOrder) (o : RawOrder),
        o ∈ deduplicate_orders orders → pyTruthyInt o.id = true) ∧
    deduplicate_printers [{ name := none, payload := 0 }] = [] ∧
    deduplicate_printers [{ name := some "", payload := 0 }] = [] ∧
    deduplicate_orders [{ id := some 0, payload := 0 }] = [] := by
  refine ⟨?_, ?_, by decide, by decide, by decide⟩
  · intro printers p h
    exact dedupPrintersGo_truthy printers [] p h
  · intro orders o h
    exact dedupOrdersGo_truthy orders [] o h

/-- Witness for C10: the only printer kept from a mixed list has a truthy
name; likewise for orders. -/
theorem dedup_removes_falsy_keys_witness :
    pyTruthyStr (some "A") = true ∧ pyTruthyInt (some 3) = true := by
  constructor
  · exact dedup_removes_falsy_keys.1
      [{ name := none, payload := 0 }, { name := some "A", payload := 1 }]
      { name := some "A", payload := 1 } (by decide)
  · exact dedup_removes_falsy_keys.2.1
      [{ id := some 0, payload := 0 }, { id := some 3, payload := 1 }]
      { id := some 3, payload := 1 } (by decide)

/-- C4: in `check_and_start_print`, the global filament total grows by
exactly `order.filament_g` when the job's
`count_incremented_for_current_job` flag (reset to false on entry) comes
out true, the total is unchanged whenever the flag comes out false, and a
rejected start (state not READY/IDLE) changes neither printer nor
total. -/
theorem filament_increment_iff_flag :
    ∀ (p : Printer) (o : Order) (total : Rat) (netOk incOk fileOk : Bool),
      ((p.state = "READY" ∨ p.state = "IDLE") →
        (check_and_start_print p o total netOk incOk
          fileOk).printer.count_incremented_for_current_job = true →
        (check_and_start_print p o total netOk incOk fileOk).total
          = total + o.filament_g) ∧
      ((check_and_start_print p o total netOk incOk
          fileOk).printer.count_incremented_for_current_job = false →
        (check_and_start_print p o total netOk incOk fileOk).total = total) ∧
      (¬(p.state = "READY" ∨ p.state = "IDLE") →
        (check_and_start_print p o total netOk incOk fileOk).printer = p ∧
        (check_and_start_print p o total netOk incOk fileOk).total = total) := by
  intro p o total netOk incOk fileOk
  simp only [check_and_start_print]
  split_ifs <;> simp_all

/-- Witness for C4: a successful Vendor-A start on a READY printer adds
the order's 12 g to the total. -/
theorem filament_increment_iff_flag_witness :
    (check_and_start_print pBase oBase 0 true true true).total
      = 0 + oBase.filament_g :=
  (filament_increment_iff_flag pBase oBase 0 true true true).1
    (Or.inl (by decide)) (by decide)

/-- Helper: the temperature copy leaves the state unchanged. -/
theorem applyBambuTemps_state (p : Printer) (bs : BambuCache) :
    (applyBambuTemps p bs).state = p.state := by
  obtain ⟨s, nt, bt, pr, tr, cf, f⟩ := bs
  cases nt <;> cases bt <;> simp [applyBambuTemps]

/-- Helper: the temperature copy leaves the manual flag unchanged. -/
theorem applyBambuTemps_manually_set (p : Printer) (bs : BambuCache) :
    (applyBambuTemps p bs).manually_set = p.manually_set := by
  obtain ⟨s, nt, bt, pr, tr, cf, f⟩ := bs
  cases nt <;> cases bt <;> simp [applyBambuTemps]

/-- Helper: a present cached nozzle temperature is copied. -/
theorem applyBambuTemps_nozzle (p : Printer) (bs : BambuCache) (t : Int)
    (h : bs.nozzle_temp = some t) :
    (applyBambuTemps p bs).nozzle_temp = some t := by
  obtain ⟨s, nt, bt, pr, tr, cf, f⟩ := bs
  simp only at h
  subst h
  cases bt <;> simp [applyBambuTemps]

/-- Helper: a present cached bed temperature is copied. -/
theorem applyBambuTemps_bed (p : Printer) (bs : BambuCache) (t : Int)
    (h : bs.bed_temp = some t) :
    (applyBambuTemps p bs).bed_temp = some t := by
  obtain ⟨s, nt, bt, pr, tr, cf, f⟩ := bs
  simp only at h
  subst h
  cases nt <;> simp [applyBambuTemps]

/-- Helper: the PRINTING progress copy leaves the state unchanged. -/
theorem applyBambuPrinting_state (p : Printer) (bs : BambuCache) :
    (applyBambuPrinting p bs).state = p.state := by
  obtain ⟨s, nt, bt, pr, tr, cf, f⟩ := bs
  cases pr <;> cases tr <;> cases cf <;> cases f <;> simp [applyBambuPrinting]

/-- Helper: the PRINTING progress copy leaves the manual flag
unchanged. -/
theorem applyBambuPrinting_manually_set (p : Printer) (bs : BambuCache) :
    (applyBambuPrinting p bs).manually_set = p.manually_set := by
  obtain ⟨s, nt, bt, pr, tr, cf, f⟩ := bs
  cases pr <;> cases tr <;> cases cf <;> cases f <;> simp [applyBambuPrinting]

/-- C7: a manually-held READY Vendor-B printer ignores any cached state
outside {PRINTING, EJECTING, PREPARE, PAUSED} while still taking the
cached temperatures; and any applied state change into PRINTING, EJECTING
or PREPARE leaves the manual flag false. -/
theorem bambu_manual_ready_override :
    (∀ (p : Printer) (bs : BambuCache) (now : Nat) (s : String) (nt bt : Int),
        p.ptype = "bambu" → p.manually_set = true → p.state = "READY" →
        bs.state = some s →
        s ≠ "PRINTING" → s ≠ "EJECTING" → s ≠ "PREPARE" → s ≠ "PAUSED" →
        bs.nozzle_temp = some nt → bs.bed_temp = some bt →
        (update_bambu_printer_state p bs now).state = "READY" ∧
        (update_bambu_printer_state p bs now).manually_set = true ∧
        (update_bambu_printer_state p bs now).nozzle_temp = some nt ∧
        (update_bambu_printer_state p bs now).bed_temp = some bt) ∧
    (∀ (p : Printer) (bs : BambuCache) (now : Nat),
        ((update_bambu_printer_state p bs now).state = "PRINTING" ∨
         (update_bambu_printer_state p bs now).state = "EJECTING" ∨
         (update_bambu_printer_state p bs now).state = "PREPARE") →
        (update_bambu_printer_state p bs now).state ≠ p.state →
        (update_bambu_printer_state p bs now).manually_set = false) := by
  constructor
  · intro p bs now s nt bt hty hman hst hbs h1 h2 h3 h4 hnt hbt
    have hover : (update_bambu_printer_state p bs now) = applyBambuTemps p bs := by
      simp [update_bambu_printer_state, hty, hman, hst, hbs, h1, h2, h3, h4]
    rw [hover]
    exact ⟨by rw [applyBambuTemps_state]; exact hst,
      by rw [applyBambuTemps_manually_set]; exact hman,
      applyBambuTemps_nozzle p bs nt hnt, applyBambuTemps_bed p bs bt hbt⟩
  · intro p bs now
    simp only [update_bambu_printer_state]
    split_ifs <;>
      simp_all [applyBambuTemps_state, applyBambuTemps_manually_set,
        applyBambuPrinting_state, applyBambuPrinting_manually_set]

/-- Witness for C7: a held-READY printer seeing stale FINISHED keeps READY
with fresh temperatures, and a READY printer seeing PRINTING comes out
with the manual flag clear. -/
theorem bambu_manual_ready_override_witness :
    ((update_bambu_printer_state pManualReady bsStaleFinished 50).state = "READY" ∧
      (update_bambu_printer_state pManualReady bsStaleFinished 50).manually_set = true ∧
      (update_bambu_printer_state pManualReady bsStaleFinished 50).nozzle_temp = some 210 ∧
      (update_bambu_printer_state pManualReady bsStaleFinished 50).bed_temp = some 60) ∧
    (update_bambu_printer_state pReadyBambu bsPrinting 50).manually_set = false := by
  constructor
  · exact bambu_manual_ready_override.1 pManualReady bsStaleFinished 50
      "FINISHED" 210 60 (by decide) (by decide) (by decide) (by decide)
      (by decide) (by decide) (by decide) (by decide) (by decide) (by decide)
  · exact bambu_manual_ready_override.2 pReadyBambu bsPrinting 50
      (Or.inl (by decide)) (by decide)

/-- C8: `update_bambu_printer_states` never moves a stored FINISHED
printer to READY on the strength of a cached READY report alone: the
FINISHED state is kept. -/
theorem bambu_finished_sticky :
    ∀ (p : Printer) (bs : BambuCache) (now : Nat),
      p.ptype = "bambu" → p.state = "FINISHED" → bs.state = some "READY" →
      (update_bambu_printer_state p bs now).state = "FINISHED" := by
  intro p bs now hty hst hbs
  simp [update_bambu_printer_state, hty, hst, hbs, applyBambuTemps_state,
    applyBambuPrinting_state]

/-- Witness for C8 at a concrete finished Vendor-B printer whose snapshot
reports READY. -/
theorem bambu_finished_sticky_witness :
    (update_bambu_printer_state pFinishedSticky bsReady 50).state = "FINISHED" :=
  bambu_finished_sticky pFinishedSticky bsReady 50 (by decide) (by decide)
    (by decide)

/-- Helper: inserting into the sorted list adds no new printers. -/
theorem mem_insertByKey :
    ∀ (x a : Printer) (l : List Printer),
      x ∈ insertByKey a l → x = a ∨ x ∈ l := by
  intro x a l
  induction l with
  | nil =>
    intro h
    simp [insertByKey] at h
    exact Or.inl h
  | cons y ys ih =>
    intro h
    simp only [insertByKey] at h
    split_ifs at h
    · rcases List.mem_cons.mp h with h1 | h2
      · exact Or.inr (List.mem_cons.mpr (Or.inl h1))
      · rcases ih h2 with h3 | h4
        · exact Or.inl h3
        · exact Or.inr (List.mem_cons.mpr (Or.inr h4))
    · rcases List.mem_cons.mp h with h1 | h2
      · exact Or.inl h1
      · exact Or.inr h2

/-- Helper: the numeric-substring sort adds no new printers. -/
theorem mem_sortByExtractNumber :
    ∀ (x : Printer) (l : List Printer),
      x ∈ sortByExtractNumber l → x ∈ l := by
  intro x l
  induction l with
  | nil =>
    intro h
    simp [sortByExtractNumber] at h
  | cons y ys ih =>
    intro h
    simp only [sortByExtractNumber] at h
    rcases mem_insertByKey x y _ h with h1 | h2
    · exact List.mem_cons.mpr (Or.inl h1)
    · exact List.mem_cons.mpr (Or.inr (ih h2))

/-- Helper: any job added by one order's loop iteration uses a printer
from the ready snapshot. -/
theorem mem_distStep_jobs (ready : List Printer) (st : DistState) (o : Order)
    (j : Printer × Order) :
    j ∈ (distStep ready st o).jobs → j ∈ st.jobs ∨ j.1 ∈ ready := by
  intro h
  simp only [distStep] at h
  split_ifs at h
  · exact Or.inl h
  · simp only [] at h
    rcases List.mem_append.mp h with h1 | h2
    · exact Or.inl h1
    · right
      rcases List.mem_map.mp h2 with ⟨p, hp, he⟩
      have hp2 : p ∈ sortByExtractNumber (eligiblePrinters ready st o) :=
        List.take_subset _ _ hp
      have hp3 : p ∈ eligiblePrinters ready st o :=
        mem_sortByExtractNumber p _ hp2
      have hp4 : p ∈ ready := by
        unfold eligiblePrinters at hp3
        exact (List.mem_filter.mp hp3).1
      rw [← he]
      exact hp4

/-- Helper: folding the per-order step over the active orders only adds
jobs whose printer is in the ready snapshot. -/
theorem foldl_distStep_jobs (ready : List Printer) :
    ∀ (os : List Order) (st : DistState) (j : Printer × Order),
      j ∈ (os.foldl (distStep ready) st).jobs → j ∈ st.jobs ∨ j.1 ∈ ready := by
  intro os
  induction os with
  | nil =>
    intro st j h
    exact Or.inl h
  | cons o os ih =>
    intro st j h
    rw [List.foldl_cons] at h
    rcases ih (distStep ready st o) j h with h1 | h2
    · exact mem_distStep_jobs ready st o j h1
    · exact Or.inr h2

/-- C6: every job queued by a distribution pass names a printer whose
snapshot state is READY or IDLE with service mode off, and
`check_and_start_print` on a printer in any other state fails without a
single network send. -/
theorem jobs_only_for_ready_idle_printers :
    (∀ (orders : List Order) (printers : List Printer) (j : Printer × Order),
        j ∈ distribute_jobs orders printers →
        (j.1.state = "READY" ∨ j.1.state = "IDLE") ∧
        j.1.service_mode = false) ∧
    (∀ (p : Printer) (o : Order) (total : Rat) (netOk incOk fileOk : Bool),
        ¬(p.state = "READY" ∨ p.state = "IDLE") →
        (check_and_start_print p o total netOk incOk fileOk).success = false ∧
        (check_and_start_print p o total netOk incOk fileOk).sends = []) := by
  constructor
  · intro orders printers j h
    unfold distribute_jobs at h
    rcases foldl_distStep_jobs (readyPrinters printers) (activeOrders orders)
      _ j h with h1 | h2
    · simp at h1
    · unfold readyPrinters at h2
      have h3 := List.mem_filter.mp h2
      have h4 := List.mem_filter.mp h3.1
      constructor
      · have h5 := h3.2
        simp at h5
        exact h5
      · have h6 := h4.2
        simp at h6
        exact h6
  · intro p o total netOk incOk fileOk h
    simp [check_and_start_print, h]

/-- Witness for C6: one READY printer and one active order produce a job
for that printer, and a start attempt on an OFFLINE printer fails. -/
theorem jobs_only_for_ready_idle_printers_witness :
    ((pBase.state = "READY" ∨ pBase.state = "IDLE") ∧
      pBase.service_mode = false) ∧
    (check_and_start_print pOffline oBase 0 true true true).success = false := by
  constructor
  · exact jobs_only_for_ready_idle_printers.1 [oBase] [pBase] (pBase, oBase)
      (by decide)
  · exact (jobs_only_for_ready_idle_printers.2 pOffline oBase 0 true true true
      (by decide)).1

end PrintQue
